import Mathlib

/-! # Formal model of the odinweb3 operation routing and dispatch pipeline

A shallow embedding of the core of the `odinweb3` package: the `UrlPath`
parsing/formatting model (`data_structures.py`), content-type resolution
(`helpers.py`, `content_type_resolvers.py`), the `Operation` /
`ListOperation` machinery (`decorators.py`), the container tree
(`containers.py`) and the dispatch pipeline (`ApiInterfaceBase`).

Python semantics are modelled explicitly:
* fallible code returns `Except PyErr α`; raised exceptions are `PyErr`
  values (attribute lookups on objects that lack the attribute raise
  `AttributeError`, as in CPython);
* machine strings are Lean `String`s manipulated through `List Char`
  helpers that mirror `str.split` / `str.rstrip` / `str.strip`;
* `None` is `Option.none` (or the `RVal.pyNone` value where a Python
  object position is modelled);
* dict views used by the code are modelled as association lists or as
  lookup functions `String → Option String`.
-/

deriving instance DecidableEq for Except

namespace OdinWeb3

/-! ## Python string helpers

Transliterations of the CPython `str` methods the modelled code uses.
They operate on `List Char`; ASCII inputs only are exercised by the
repository (the `\w` class of `re` is modelled as `[a-zA-Z0-9_]`). -/

/-- `str.split(sep)` for a single-character separator: always returns at
least one (possibly empty) piece, `"".split(c) == ['']`. -/
def pySplitChar (c : Char) : List Char → List (List Char)
  | [] => [[]]
  | x :: xs =>
    match pySplitChar c xs with
    | [] => [[]]
    | h :: t => if x = c then [] :: h :: t else (x :: h) :: t

/-- `sep.join(pieces)` for a single-character separator. -/
def pyJoinChar (c : Char) : List (List Char) → List Char
  | [] => []
  | [l] => l
  | l :: ls => l ++ c :: pyJoinChar c ls

/-- `str.rstrip(c)`: remove every trailing occurrence of `c`. -/
def pyRstripChar (c : Char) (l : List Char) : List Char :=
  (l.reverse.dropWhile (· = c)).reverse

/-- `str.strip()`: remove leading and trailing whitespace. -/
def pyStrip (s : String) : String :=
  String.mk (((s.data.dropWhile Char.isWhitespace).reverse.dropWhile Char.isWhitespace).reverse)

/-- The `\w` character class of `re` restricted to ASCII. -/
def isWordChar (c : Char) : Bool :=
  c.isAlphanum || c = '_'

/-- The character class `[-^$+*:\w\\[\]|]` of the `PATH_NODE_RE` regular
expression in `data_structures.py` line 114 (third capture group). -/
def isArgChar (c : Char) : Bool :=
  isWordChar c || c = '-' || c = '^' || c = '$' || c = '+' || c = '*' || c = ':' ||
    c = '\\' || c = '[' || c = ']' || c = '|'

/-! ## Data model: constants.py -/

/-- `constants.Method` — OpenAPI HTTP methods.  The upper-case names in the
source (`GET = 'get'`, …) are enum *aliases* of the canonical members, so
the enum has exactly these eight distinct members. -/
inductive Method where
  | Get | Put | Post | Delete | Options | Head | Patch | Trace
deriving DecidableEq, Repr

/-- `Method.value` — the wire string of each method. -/
def Method.value : Method → String
  | .Get => "get"
  | .Put => "put"
  | .Post => "post"
  | .Delete => "delete"
  | .Options => "options"
  | .Head => "head"
  | .Patch => "patch"
  | .Trace => "trace"

/-- `constants.Status = http.HTTPStatus` restricted to the members the
modelled code uses. -/
inductive Status where
  | OK | NO_CONTENT | BAD_REQUEST | METHOD_NOT_ALLOWED | NOT_ACCEPTABLE
  | UNPROCESSABLE_ENTITY | INTERNAL_SERVER_ERROR | NOT_IMPLEMENTED
deriving DecidableEq, Repr

/-- `HTTPStatus.value` (the numeric status code). -/
def Status.value : Status → Int
  | .OK => 200
  | .NO_CONTENT => 204
  | .BAD_REQUEST => 400
  | .METHOD_NOT_ALLOWED => 405
  | .NOT_ACCEPTABLE => 406
  | .UNPROCESSABLE_ENTITY => 422
  | .INTERNAL_SERVER_ERROR => 500
  | .NOT_IMPLEMENTED => 501

/-- `HTTPStatus.phrase`. -/
def Status.phrase : Status → String
  | .OK => "OK"
  | .NO_CONTENT => "No Content"
  | .BAD_REQUEST => "Bad Request"
  | .METHOD_NOT_ALLOWED => "Method Not Allowed"
  | .NOT_ACCEPTABLE => "Not Acceptable"
  | .UNPROCESSABLE_ENTITY => "Unprocessable Entity"
  | .INTERNAL_SERVER_ERROR => "Internal Server Error"
  | .NOT_IMPLEMENTED => "Not Implemented"

/-- `HTTPStatus.description` as defined by CPython (`""` for members that
CPython defines without a description, e.g. 422). -/
def Status.description : Status → String
  | .OK => "Request fulfilled, document follows"
  | .NO_CONTENT => "Request fulfilled, nothing follows"
  | .BAD_REQUEST => "Bad request syntax or unsupported method"
  | .METHOD_NOT_ALLOWED => "Specified method is invalid for this resource"
  | .NOT_ACCEPTABLE => "URI not available in preferred format"
  | .UNPROCESSABLE_ENTITY => ""
  | .INTERNAL_SERVER_ERROR => "Server got itself in trouble"
  | .NOT_IMPLEMENTED => "Server does not support this operation"

/-- `constants.DataType` — the OpenAPI data types. -/
inductive DataType where
  | Integer | Number | String | Boolean | Array | Object
deriving DecidableEq, Repr

/-- Alias for the Lean string type, usable where a constructor name of a
modelled enum (e.g. `DataType.String`) shadows `String`. -/
abbrev PyStr := String

/-- The enum member `name` attribute of a `DataType`. -/
def DataType.name : DataType → PyStr
  | .Integer => "Integer"
  | .Number => "Number"
  | .String => "String"
  | .Boolean => "Boolean"
  | .Array => "Array"
  | .Object => "Object"

/-! ## Data model: data_structures.py — UrlPath -/

/-- The value stored in the `type` field of a `PathParam`.

`ParamType.data` is a `constants.DataType` member (this is what the
`PathParam` constructor default `DataType.Integer` produces, see
`PathParam.__new__.__defaults__`, `data_structures.py` line 78).

`ParamType.typingType arg` models the generic alias `typing.Type[arg]`.
`UrlPath.parse` (line 162) evaluates `Type[param_type]` where `Type` is
`typing.Type` (imported at line 6); subscripting `typing.Type` with a
string (forward reference) or with `None` always succeeds and yields a
generic-alias object, never a `DataType` member and never a `KeyError`. -/
inductive ParamType where
  | data (d : DataType)
  | typingType (arg : Option String)
deriving DecidableEq, Repr

/-- `PathParam` — named tuple `(name, type, type_args)` with defaults
`(None, DataType.Integer, None)`; the modelled code never constructs the
`name=None` default. -/
structure PathParam where
  name : String
  type : ParamType := .data .Integer
  type_args : Option String := none
deriving DecidableEq, Repr

/-- A node of a `UrlPath`: a literal string segment or a `PathParam`. -/
inductive UrlNode where
  | lit (s : String)
  | param (p : PathParam)
deriving DecidableEq, Repr

/-- `UrlPath` — an immutable sequence of nodes. -/
structure UrlPath where
  nodes : List UrlNode
deriving DecidableEq, Repr

/-! ## Data model: values, resources and exceptions -/

/-- `resources.Error` — the structured error resource.  `meta` carries the
optional field→message mapping of a validation error. -/
structure Error where
  status : Int
  code : Int
  message : String
  developer_message : String
  meta : Option (List (String × String))
deriving DecidableEq, Repr

/-- `data_structures.HttpResponse` — simplified HTTP response.  `__init__`
unwraps a `Status` enum into its integer value, so `status` is modelled as
`Int`; `body` is the (already encoded or phrase) string, or `None`. -/
structure HttpResponse where
  body : Option String
  status : Int
  headers : List (String × String)
deriving DecidableEq, Repr

/-- A Python value flowing through the dispatch pipeline (`Any` in the
source): `None`, an opaque resource object (identified by a tag), an
`Error` resource, an `HttpResponse`, or a 2-tuple (used by
`ListOperation.execute` for `(result, total_count)` returns). -/
inductive RVal where
  | pyNone
  | resource (tag : String)
  | errorRes (e : Error)
  | httpResponse (r : HttpResponse)
  | intVal (n : Int)
  | tuple2 (a b : RVal)
deriving DecidableEq, Repr

/-- Truthiness of an `RVal` (`if resource:`): `None` is falsy, the object
values the modelled code produces are truthy. -/
def RVal.truthy : RVal → Bool
  | .pyNone => false
  | _ => true

/-- A status value as it travels through `dispatch_operation`: either a
`Status` enum member (e.g. from an `ImmediateHttpResponse`) or a plain
integer (e.g. an `Error.status` field).  `_dispatch` unwraps the enum form
(`if isinstance(status, HTTPStatus): status = status.value`). -/
inductive StatusV where
  | ofStatus (s : Status)
  | ofInt (n : Int)
deriving DecidableEq, Repr

/-- A raised Python exception.  `immediateHttpResponse` carries the
payload of `exceptions.ImmediateHttpResponse` (and of its subclass
`HttpError`); `validationError` carries `str(e)` and the optional
`message_dict`; the remaining constructors model builtin exceptions. -/
inductive PyErr where
  | valueError (msg : String)
  | keyError (key : String)
  | attributeError (attr : String)
  | typeError (msg : String)
  | indexError (msg : String)
  | notImplementedError
  | validationError (msg : String) (message_dict : Option (List (String × String)))
  | immediateHttpResponse (resource : RVal) (status : StatusV)
      (headers : Option (List (String × String)))
  | exception (msg : String)
deriving DecidableEq, Repr

/-- `int(s)` for base-10 string input: optional surrounding whitespace,
optional sign, at least one digit; otherwise `ValueError`. -/
def pyInt (s : String) : Except PyErr Int :=
  let core := (pyStrip s).data
  let signDigits : Int × List Char :=
    match core with
    | '-' :: ds => (-1, ds)
    | '+' :: ds => (1, ds)
    | ds => (1, ds)
  if signDigits.2 ≠ [] ∧ signDigits.2.all Char.isDigit then
    .ok (signDigits.1 * (signDigits.2.foldl (fun n ch => n * 10 + (ch.toNat - '0'.toNat)) 0 : Nat))
  else
    .error (.valueError ("invalid literal for int() with base 10: " ++ s))

/-! ## UrlPath operations (data_structures.py lines 81-273) -/

/-- `_add_nodes(a, b)` (lines 81-84): raise `ValueError` when `b` is
non-empty and its first node equals the empty string (node-to-string
comparison: a `PathParam` never equals `''`), otherwise concatenate. -/
def _add_nodes (a b : List UrlNode) : Except PyErr (List UrlNode) :=
  match b with
  | [] => .ok (a ++ b)
  | n :: _ =>
    if n = UrlNode.lit "" then .error (.valueError "Right hand argument cannot be absolute.")
    else .ok (a ++ b)

/-- `UrlPath.__add__` for a `UrlPath` right operand (lines 191-192). -/
def UrlPath.add (a b : UrlPath) : Except PyErr UrlPath :=
  (_add_nodes a.nodes b.nodes).map UrlPath.mk

/-- `UrlPath.is_absolute` (lines 235-240): non-empty and first node equal
to the empty string literal. -/
def UrlPath.is_absolute (u : UrlPath) : Bool :=
  match u.nodes with
  | [] => false
  | n :: _ => decide (n = UrlNode.lit "")

/-- The second and third capture group of `PATH_NODE_RE` against the text
following `name ':'`: first (greedily) `([a-zA-Z]\w*)` optionally followed
by `':' arg`, else — backtracking with the type group unmatched — the
whole text as `arg` (`[-^$+*:\w\\[\]|]+`).  Shortening the greedy type
match can never help because the character after a shortened type would be
a `\w` character, which neither `':'` nor the end anchor accepts. -/
def matchTypeArg (rest : List Char) : Option (Option String × Option String) :=
  let tryType : Option (Option String × Option String) :=
    match rest with
    | c :: _ =>
      if c.isAlpha then
        let t := rest.takeWhile isWordChar
        match rest.dropWhile isWordChar with
        | [] => some (some (String.mk t), none)
        | ':' :: a =>
          if a ≠ [] ∧ a.all isArgChar then some (some (String.mk t), some (String.mk a))
          else none
        | _ => none
      else none
    | [] => none
  match tryType with
  | some r => some r
  | none =>
    if rest ≠ [] ∧ rest.all isArgChar then some (none, some (String.mk rest))
    else none

/-- `PATH_NODE_RE.match(node)` (line 114):
`^{([a-zA-Z]\w*)(?::([a-zA-Z]\w*))?(?::([-^$+*:\w\\[\]|]+))?}$`,
returning the three capture groups. -/
def matchPathNode (s : List Char) : Option (String × Option String × Option String) :=
  match s with
  | '{' :: rest =>
    if rest.getLast? = some '}' then
      let interior := rest.dropLast
      match interior with
      | c :: _ =>
        if c.isAlpha then
          let name := interior.takeWhile isWordChar
          match interior.dropWhile isWordChar with
          | [] => some (String.mk name, none, none)
          | ':' :: r => (matchTypeArg r).map fun ta => (String.mk name, ta.1, ta.2)
          | _ => none
        else none
      | [] => none
    else none
  | _ => none

/-- One node of `UrlPath.parse` (lines 153-170).  When the segment
contains a brace it must match `PATH_NODE_RE`, else `ValueError`.  The
matched type name is then looked up at line 162 as `Type[param_type]`,
where `Type` is `typing.Type` (imported from `typing` at line 6): the
subscription succeeds for every matched name and for `None`, so the
`except KeyError` handler at lines 163-166 (unknown-type `ValueError`,
`DataType.Integer` default) is dead code and the stored type is always a
`typing.Type[...]` generic alias, modelled by `ParamType.typingType`. -/
def parseNode (node : String) : Except PyErr UrlNode :=
  if '{' ∈ node.data ∨ '}' ∈ node.data then
    match matchPathNode node.data with
    | none => .error (.valueError ("Invalid path param: " ++ node))
    | some (name, param_type, param_arg) =>
      .ok (.param ⟨name, .typingType param_type, param_arg⟩)
  else
    .ok (.lit node)

/-- `UrlPath.parse` (lines 143-172): empty string gives the empty path,
otherwise the input is right-stripped of `'/'`, split on `'/'`, and each
piece is parsed as a node. -/
def UrlPath.parse (url_path : String) : Except PyErr UrlPath :=
  if url_path = "" then
    .ok ⟨[]⟩
  else do
    let nodes ← ((pySplitChar '/' (pyRstripChar '/' url_path.data)).map String.mk).mapM parseNode
    .ok ⟨nodes⟩

/-- The `name` attribute of a `PathParam.type` value, as read by
`odinweb_node_formatter` (line 256, `path_node.type.name`).  A `DataType`
enum member exposes its member name; a `typing.Type[...]` generic alias
has no `name` attribute (`_GenericAlias.__getattr__` forwards to the
origin `type`, which has no `name`), raising `AttributeError`. -/
def ParamType.nameAttr : ParamType → Except PyErr String
  | .data d => .ok d.name
  | .typingType _ => .error (.attributeError "name")

/-- `UrlPath.odinweb_node_formatter` (lines 249-259).  Both `DataType`
members and `typing.Type[...]` aliases are truthy, so the
`if path_node.type:` branch is always taken for the values the code
constructs; a `type_args` of `''` or `None` is falsy and skipped. -/
def UrlPath.odinweb_node_formatter (path_node : PathParam) : Except PyErr String := do
  let tyName ← path_node.type.nameAttr
  let args := [path_node.name, tyName]
  let args := match path_node.type_args with
    | some a => if a = "" then args else args ++ [a]
    | none => args
  .ok ("\x7b" ++ String.intercalate ":" args ++ "\x7d")

/-- One node of `UrlPath.format` (line 273):
`node_formatter(n) if isinstance(n, PathParam) else n` with the default
formatter. -/
def formatNode (n : UrlNode) : Except PyErr String :=
  match n with
  | .lit s => .ok s
  | .param p => UrlPath.odinweb_node_formatter p

/-- `UrlPath.format` with the default node formatter (lines 261-273): the
degenerate single-empty-node path renders as `"/"`, otherwise the nodes
are rendered (literals verbatim, parameters through
`odinweb_node_formatter`) and joined with `'/'`. -/
def UrlPath.format (u : UrlPath) : Except PyErr String := do
  if u.nodes = [UrlNode.lit ""] then
    .ok "/"
  else do
    let parts ← u.nodes.mapM formatNode
    .ok (String.mk (pyJoinChar '/' (parts.map String.data)))

/-- `UrlPath.parse` followed by `UrlPath.format` with the default
formatter — the round-trip of the spec's testable property. -/
def UrlPath.roundTrip (s : String) : Except PyErr String := do
  let u ← UrlPath.parse s
  u.format

/-! ### str.format (used by `UrlPath.apply_args`)

`apply_args` calls `node.name.format(**kwargs)`.  The model below covers
CPython's simple replacement fields as they occur in this repository:
literal text, escaped braces, and `\x7bname\x7d` fields whose name is a
plain keyword (the names produced by `UrlPath.parse` contain no braces at
all, and the convention documented in `apply_args`'s docstring uses
`PathParam('\x7bid\x7d')`).  Fields with conversions, format specs or
attribute/index access are not used by the repository and are not
modelled. -/

/-- Resolve one replacement field name against the keyword arguments: an
empty name is an automatic positional field and no positional arguments
are supplied (`IndexError`); a numeric name is an explicit positional
index (`IndexError`); otherwise a keyword lookup (`KeyError` when
absent). -/
def resolveField (kwargs : List (String × String)) (name : String) : Except PyErr String :=
  if name = "" then
    .error (.indexError "Replacement index 0 out of range for positional args tuple")
  else if name.data.all Char.isDigit then
    .error (.indexError "Replacement index out of range for positional args tuple")
  else
    match kwargs.lookup name with
    | some v => .ok v
    | none => .error (.keyError name)

/-- The scanner of `str.format`: `mode = none` is ordinary text,
`mode = some acc` is inside a replacement field with the (reversed)
field-name characters collected so far.  The `fuel` argument only makes
the recursion structural: each step consumes at least one character, so
callers supply `length + 1` fuel and the out-of-fuel branch is
unreachable. -/
def pyFormatGo (kwargs : List (String × String)) :
    Nat → Option (List Char) → List Char → Except PyErr (List Char)
  | 0, _, _ => .error (.exception "format scanner out of fuel")
  | _ + 1, none, [] => .ok []
  | _ + 1, some _, [] =>
    .error (.valueError "Single brace encountered: expected closing brace before end of string")
  | fuel + 1, none, c :: rest =>
    if c = '{' then
      match rest with
      | '{' :: rest2 => (fun t => '{' :: t) <$> pyFormatGo kwargs fuel none rest2
      | _ => pyFormatGo kwargs fuel (some []) rest
    else if c = '}' then
      match rest with
      | '}' :: rest2 => (fun t => '}' :: t) <$> pyFormatGo kwargs fuel none rest2
      | _ => .error (.valueError "Single brace encountered in format string")
    else
      (fun t => c :: t) <$> pyFormatGo kwargs fuel none rest
  | fuel + 1, some acc, c :: rest =>
    if c = '}' then do
      let v ← resolveField kwargs (String.mk acc.reverse)
      let t ← pyFormatGo kwargs fuel none rest
      .ok (v.data ++ t)
    else if c = '{' then
      .error (.valueError "unexpected brace in field name")
    else
      pyFormatGo kwargs fuel (some (c :: acc)) rest

/-- `s.format(**kwargs)` for the field shapes described above. -/
def pyFormat (s : String) (kwargs : List (String × String)) : Except PyErr String :=
  (pyFormatGo kwargs (s.data.length + 1) none s.data).map String.mk

/-- The `apply_format` inner function of `apply_args` (lines 227-231):
format a `PathParam`'s name (type and type_args carried over unchanged),
keep literal nodes as they are. -/
def applyArgsNode (kwargs : List (String × String)) (n : UrlNode) : Except PyErr UrlNode :=
  match n with
  | UrlNode.param p =>
    (pyFormat p.name kwargs).map fun nm => UrlNode.param ⟨nm, p.type, p.type_args⟩
  | UrlNode.lit s => .ok (.lit s)

/-- `UrlPath.apply_args` (lines 214-233): map over the nodes, formatting
each `PathParam`'s name with the keyword arguments (type and type_args
are carried over unchanged) and keeping literal nodes as they are. -/
def UrlPath.apply_args (u : UrlPath) (kwargs : List (String × String)) :
    Except PyErr UrlPath := do
  let ns ← u.nodes.mapM (applyArgsNode kwargs)
  .ok ⟨ns⟩

/-! ## helpers.py — content-type parsing and resolution (lines 15-35) -/

/-- `parse_content_type(value)` (helpers.py lines 15-25): `''` for a
falsy value (`None` or the empty string), otherwise the text before the
first `';'`, stripped of surrounding whitespace. -/
def parse_content_type (value : Option String) : String :=
  match value with
  | none => ""
  | some s =>
    if s = "" then ""
    else
      match pySplitChar ';' s.data with
      | [] => ""
      | h :: _ => pyStrip (String.mk h)

/-- `resolve_content_type(type_resolvers, request)` (helpers.py lines
28-35): evaluate the resolvers in list order; return the first result
that is non-empty after `parse_content_type`; fall off the end (Python
`None`) when every resolver yields an empty result. -/
def resolve_content_type {ρ : Type} (type_resolvers : List (ρ → Option String))
    (request : ρ) : Option String :=
  match type_resolvers with
  | [] => none
  | resolver :: rest =>
    let content_type := parse_content_type (resolver request)
    if content_type ≠ "" then some content_type
    else resolve_content_type rest request

/-! ## Codec and request capabilities

The codec is an external collaborator (odin JSON/MessagePack/YAML codec
modules): an `encode` function keyed by a content-type string.  The
request is the abstract object of `bases.HttpRequestBase` /
`testing.MockRequest`: the modelled pipeline reads `method`, `headers`,
`query` and the two settable codec slots; the remaining read-only
properties (scheme, host, path, cookies, post, body) are not consumed by
the modelled operations and are omitted. -/

/-- A codec capability: `CONTENT_TYPE`/`content_type` and
`dumps(resource) -> str`. -/
structure Codec where
  content_type : String
  dumps : RVal → String

/-- The request object.  `headers` and `query` are the single-value
(last-write-wins) lookup views of the corresponding multi-maps. -/
structure Req where
  method : Method
  headers : String → Option String
  query : String → Option String
  request_codec : Option Codec := none
  response_codec : Option Codec := none

/-- The `request_codec` property setter (bases.py lines 106-111): assigns
the request codec and, when the response codec is still unset, defaults
it to the same codec. -/
def Req.setRequestCodec (r : Req) (c : Codec) : Req :=
  { r with request_codec := some c,
           response_codec := match r.response_codec with
             | none => some c
             | some x => some x }

/-- The `response_codec` property setter (bases.py lines 120-122). -/
def Req.setResponseCodec (r : Req) (c : Codec) : Req :=
  { r with response_codec := some c }

/-! ## content_type_resolvers.py -/

/-- `content_type_resolvers.accepts_header()` — resolve from the
`accepts` header. -/
def accepts_header : Req → Option String :=
  fun request => request.headers "accepts"

/-- `content_type_resolvers.content_type_header()` — resolve from the
`content-type` header. -/
def content_type_header : Req → Option String :=
  fun request => request.headers "content-type"

/-- `content_type_resolvers.specific_default(content_type)` — always
yield the given content type. -/
def specific_default (content_type : String) : Req → Option String :=
  fun _ => some content_type

/-- The class-level request resolver chain of `ApiInterfaceBase`
(containers.py lines 243-247); `json_codec.CONTENT_TYPE` is
`application/json`. -/
def request_type_resolvers_default : List (Req → Option String) :=
  [content_type_header, accepts_header, specific_default "application/json"]

/-- The class-level response resolver chain of `ApiInterfaceBase`
(containers.py lines 252-256). -/
def response_type_resolvers_default : List (Req → Option String) :=
  [accepts_header, content_type_header, specific_default "application/json"]

/-! ## resources.py — Error.from_status -/

/-- Python `a or b` for an optional string `a`: the default is used when
`a` is `None` or empty. -/
def pyOrStr (v : Option String) (d : String) : String :=
  match v with
  | some s => if s = "" then d else s
  | none => d

/-- `Error.from_status(status, code_index, message, developer_message,
meta)` (resources.py lines 62-81): `code = status.value * 100 +
code_index`; message and developer message fall back to the status
description. -/
def Error.from_status (status : Status) (code_index : Int)
    (message : Option String := none) (developer_message : Option String := none)
    (meta : Option (List (String × String)) := none) : Error :=
  { status := status.value
    code := status.value * 100 + code_index
    message := pyOrStr message status.description
    developer_message := pyOrStr developer_message status.description
    meta := meta }

/-! ## HttpResponse construction and create_response -/

/-- `HttpResponse.from_status(status, headers)` (data_structures.py lines
32-34): body is `status.description or status.phrase`; `__init__` unwraps
the status enum to its integer value and defaults headers to `{}`. -/
def HttpResponse.from_status (status : Status)
    (headers : Option (List (String × String)) := none) : HttpResponse :=
  { body := some (if status.description ≠ "" then status.description else status.phrase)
    status := status.value
    headers := headers.getD [] }

/-- Python `status or DEFAULT` for the integer-or-None status reaching
`create_response` (`0` is falsy, though no HTTP status is `0`). -/
def pyOrStatus (status : Option Int) (d : Status) : Int :=
  match status with
  | some n => if n = 0 then d.value else n
  | none => d.value

/-- `helpers.create_response(request, body, status, headers)` (helpers.py
lines 79-95).  For `body=None` it returns an empty `HttpResponse`
(defaulting the status to 204 No Content).  Otherwise it encodes the body
through `request.response_codec.dumps` and then calls
`response.set_content_type(...)` (line 94) — but `HttpResponse`
(data_structures.py lines 26-62) defines only a `content_type` *property*
and no `set_content_type` method, so this attribute lookup raises
`AttributeError` and the non-`None`-body branch never returns. -/
def create_response (request : Req) (body : RVal := .pyNone)
    (status : Option Int := none)
    (headers : Option (List (String × String)) := none) : Except PyErr RVal :=
  if body = RVal.pyNone then
    .ok (.httpResponse { body := none, status := pyOrStatus status .NO_CONTENT,
                         headers := headers.getD [] })
  else
    match request.response_codec with
    | none => .error (.attributeError "dumps")
    | some codec =>
      let _encoded := codec.dumps body
      .error (.attributeError "set_content_type")

/-! ## Middleware hooks and Operation (dispatch view)

`MiddlewareList` (data_structures.py lines 440-493) exposes
priority-sorted tuples of the hook methods present on the registered
middleware objects; the model carries those derived hook lists directly.
`pathArgs` is mutated by reference by pre-dispatch hooks — modelled by
hooks returning the updated mapping, threaded to the next stage. -/

/-- Path arguments: a name → value mapping (values are route-captured
strings or injected integers). -/
inductive AVal where
  | intV (n : Int)
  | strV (s : String)
deriving DecidableEq, Repr

abbrev PathArgs := List (String × AVal)

/-- `dict[key] = value` on a path-args mapping. -/
def PathArgs.setArg (pa : PathArgs) (k : String) (v : AVal) : PathArgs :=
  if pa.any (fun kv => kv.1 = k) then
    pa.map fun kv => if kv.1 = k then (k, v) else kv
  else
    pa ++ [(k, v)]

/-- The derived hook views of a `MiddlewareList`. -/
structure MiddlewareHooks where
  pre_request : List (Req → PathArgs → Except PyErr PathArgs) := []
  pre_dispatch : List (Req → PathArgs → Except PyErr PathArgs) := []
  post_dispatch : List (Req → RVal → Except PyErr RVal) := []
  handle_500 : List (Req → PyErr → Except PyErr RVal) := []
  post_request : List (Req → RVal → Except PyErr RVal) := []

/-- Run pre-dispatch/pre-request hooks in order, threading the mutable
`path_args` mapping. -/
def runPreHooks (hooks : List (Req → PathArgs → Except PyErr PathArgs))
    (request : Req) (path_args : PathArgs) : Except PyErr PathArgs :=
  match hooks with
  | [] => .ok path_args
  | h :: rest => do
    let path_args ← h request path_args
    runPreHooks rest request path_args

/-- Run post-dispatch/post-request hooks in order, each stage's output
feeding the next. -/
def runPostHooks (hooks : List (Req → RVal → Except PyErr RVal))
    (request : Req) (response : RVal) : Except PyErr RVal :=
  match hooks with
  | [] => .ok response
  | h :: rest => do
    let response ← h request response
    runPostHooks rest request response

/-- An `Operation` as seen by the dispatch pipeline: its accepted method
tuple, its own middleware hook lists, and `execute` (the callback with
any binding already folded in). -/
structure OperationModel where
  methods : List Method
  pre_dispatch : List (Req → PathArgs → Except PyErr PathArgs) := []
  post_dispatch : List (Req → RVal → Except PyErr RVal) := []
  callback : Req → PathArgs → Except PyErr RVal

/-- `Operation.__call__(request, path_args)` (decorators.py lines 79-92):
the operation's own pre-dispatch hooks, then `execute`, then its own
post-dispatch hooks. -/
def OperationModel.call (op : OperationModel) (request : Req)
    (path_args : PathArgs) : Except PyErr RVal := do
  let path_args ← runPreHooks op.pre_dispatch request path_args
  let response ← op.callback request path_args
  runPostHooks op.post_dispatch request response

/-! ## containers.py — ApiInterfaceBase dispatch pipeline -/

/-- `ApiInterfaceBase` state: the codec registry, remap table, resolver
chains, root middleware hook views and the debug flag. -/
structure ApiInterfaceBase where
  registered_codecs : List (String × Codec)
  remap_codecs : List (String × String) := [("text/plain", "application/json")]
  request_type_resolvers : List (Req → Option String) := request_type_resolvers_default
  response_type_resolvers : List (Req → Option String) := response_type_resolvers_default
  middleware : MiddlewareHooks := {}
  debug_enabled : Bool := false

/-- `self.remap_codecs.get(request_type, request_type)`
(containers.py lines 357, 364) — the resolved type may be `None`, which
is never a key of the remap dict. -/
def remapGet (remap : List (String × String)) (k : Option String) : Option String :=
  match k with
  | some s => some ((remap.lookup s).getD s)
  | none => none

/-- `self.registered_codecs[request_type]` — dict lookup whose `KeyError`
the caller turns into an error response; `None` is never a key. -/
def codecLookup (codecs : List (String × Codec)) (k : Option String) : Option Codec :=
  match k with
  | some s => codecs.lookup s
  | none => none

/-- The middleware part of `ApiInterfaceBase.handle_500` (containers.py
lines 283-292): try each `handle_500` hook in order, returning the first
truthy resource; a raised exception aborts the loop (it replaces the
logged exception and the generic fallback is used). -/
def handle500Hooks (hooks : List (Req → PyErr → Except PyErr RVal))
    (request : Req) (exception : PyErr) : Option RVal :=
  match hooks with
  | [] => none
  | h :: rest =>
    match h request exception with
    | .ok resource =>
      if resource.truthy then some resource
      else handle500Hooks rest request exception
    | .error _ => none

/-- `ApiInterfaceBase.handle_500(request, exception)` (containers.py
lines 278-300): middleware hooks first, otherwise log and return the
generic `500` error resource. -/
def ApiInterfaceBase.handle_500 (iface : ApiInterfaceBase) (request : Req)
    (exception : PyErr) : RVal :=
  match handle500Hooks iface.middleware.handle_500 request exception with
  | some resource => resource
  | none =>
    .errorRes (Error.from_status .INTERNAL_SERVER_ERROR 0
      (some "An unhandled error has been caught."))

/-- The body of `dispatch_operation`'s `try:` block (containers.py lines
307-315): root pre-dispatch hooks, the operation call, root post-dispatch
hooks. -/
def dispatchOperationBody (iface : ApiInterfaceBase) (operation : OperationModel)
    (request : Req) (path_args : PathArgs) : Except PyErr RVal := do
  let path_args ← runPreHooks iface.middleware.pre_dispatch request path_args
  let resource ← operation.call request path_args
  runPostHooks iface.middleware.post_dispatch request resource

/-- Classification used by `dispatch_operation`'s `except` chain: an
exception that is none of `ImmediateHttpResponse`, `ValidationError` or
`NotImplementedError`. -/
def PyErr.isUnclassified : PyErr → Bool
  | .immediateHttpResponse .. => false
  | .validationError .. => false
  | .notImplementedError => false
  | _ => true

/-- The `.status` attribute of the resource returned by `handle_500`
(read at containers.py line 346): present on `Error` resources and
`HttpResponse` objects, otherwise `AttributeError`. -/
def RVal.statusAttr : RVal → Except PyErr Int
  | .errorRes e => .ok e.status
  | .httpResponse r => .ok r.status
  | _ => .error (.attributeError "status")

/-- `ApiInterfaceBase.dispatch_operation(operation, request, path_args)`
(containers.py lines 302-349): run the dispatch body and convert known
exception kinds to a `(resource, status, headers)` triple; unclassified
exceptions re-raise in debug mode and otherwise go through `handle_500`. -/
def ApiInterfaceBase.dispatch_operation (iface : ApiInterfaceBase)
    (operation : OperationModel) (request : Req) (path_args : PathArgs) :
    Except PyErr (RVal × Option StatusV × Option (List (String × String))) :=
  match dispatchOperationBody iface operation request path_args with
  | .ok resource => .ok (resource, none, none)
  | .error (.immediateHttpResponse resource status headers) =>
    .ok (resource, some status, headers)
  | .error (.validationError msg message_dict) =>
    let resource := match message_dict with
      | some d => Error.from_status .BAD_REQUEST 0 (some "Failed validation") none (some d)
      | none => Error.from_status .BAD_REQUEST 0 (some msg)
    .ok (.errorRes resource, some (.ofInt resource.status), none)
  | .error .notImplementedError =>
    let resource := Error.from_status .NOT_IMPLEMENTED 0
      (some "The method has not been implemented")
    .ok (.errorRes resource, some (.ofInt resource.status), none)
  | .error e =>
    if iface.debug_enabled then .error e
    else
      let resource := iface.handle_500 request e
      match resource.statusAttr with
      | .ok status => .ok (resource, some (.ofInt status), none)
      | .error e2 => .error e2

/-- `','.join(m.value for m in operation.methods)` — the `Allow` header
value of a 405 response (containers.py line 374). -/
def allowHeader (methods : List Method) : String :=
  String.intercalate "," (methods.map Method.value)

/-- `ApiInterfaceBase._dispatch(operation, request, path_args)`
(containers.py lines 351-389): content negotiation (422/406), method
validation (405 with `Allow`), operation dispatch, status unwrapping and
response assembly. -/
def ApiInterfaceBase._dispatch (iface : ApiInterfaceBase)
    (operation : OperationModel) (request : Req) (path_args : PathArgs) :
    Except PyErr RVal :=
  let request_type := remapGet iface.remap_codecs
    (resolve_content_type iface.request_type_resolvers request)
  match codecLookup iface.registered_codecs request_type with
  | none => .ok (.httpResponse (HttpResponse.from_status .UNPROCESSABLE_ENTITY))
  | some request_codec =>
    let request := request.setRequestCodec request_codec
    let response_type := remapGet iface.remap_codecs
      (resolve_content_type iface.response_type_resolvers request)
    match codecLookup iface.registered_codecs response_type with
    | none => .ok (.httpResponse (HttpResponse.from_status .NOT_ACCEPTABLE))
    | some response_codec =>
      let request := request.setResponseCodec response_codec
      if ¬ operation.methods.contains request.method then
        .ok (.httpResponse (HttpResponse.from_status .METHOD_NOT_ALLOWED
          (some [("Allow", allowHeader operation.methods)])))
      else do
        let (resource, status, headers) ←
          iface.dispatch_operation operation request path_args
        let status : Option Int := match status with
          | some (.ofStatus s) => some s.value
          | some (.ofInt n) => some n
          | none => none
        match resource with
        | .httpResponse r => .ok (.httpResponse r)
        | resource => create_response request resource status headers

/-- `ApiInterfaceBase.dispatch(operation, request, **path_args)`
(containers.py lines 391-416): pre-request hooks, `_dispatch`,
post-request hooks, and a top-level guard that funnels any uncaught
exception through `handle_500` unless debug mode is enabled. -/
def ApiInterfaceBase.dispatch (iface : ApiInterfaceBase)
    (operation : OperationModel) (request : Req) (path_args : PathArgs) :
    Except PyErr RVal :=
  let body : Except PyErr RVal := do
    let path_args ← runPreHooks iface.middleware.pre_request request path_args
    let response ← iface._dispatch operation request path_args
    runPostHooks iface.middleware.post_request request response
  match body with
  | .ok response => .ok response
  | .error e =>
    if iface.debug_enabled then .error e
    else .ok (iface.handle_500 request e)

/-! ## decorators.py — Operation construction and binding

`Operation` is a `__slots__` class.  A slot that has not been assigned
yet raises `AttributeError` on read.  The `resource` / `key_field_name`
property chain below is modelled over explicit slot states:
`none` = slot not yet assigned, `some v` = slot holding the Python value
`v` (which may itself be `None`). -/

/-- The odin resource capability seen through `getmeta(...)`:
`key_field` is `None` or a field whose `attname` is the stored string. -/
structure ResourceMeta where
  key_field : Option String
deriving DecidableEq, Repr

/-- A `ResourceApi` instance as seen through `Operation._binding`: it
exposes a `resource` attribute. -/
structure ResourceApiInstance where
  resource : Option ResourceMeta
deriving DecidableEq, Repr

/-- `Operation.resource` property (decorators.py lines 147-155):
`self._resource` if truthy, else `self._binding.resource` if a binding is
set, else the implicit `None`.  Reading an unassigned slot raises
`AttributeError`. -/
def Operation.resourceProp (resource_slot : Option (Option ResourceMeta))
    (binding_slot : Option (Option ResourceApiInstance)) :
    Except PyErr (Option ResourceMeta) :=
  match resource_slot with
  | none => .error (.attributeError "_resource")
  | some (some r) => .ok (some r)
  | some none =>
    match binding_slot with
    | none => .error (.attributeError "_binding")
    | some (some b) => .ok b.resource
    | some none => .ok none

/-- `Operation.key_field_name` (decorators.py lines 157-167):
`'resource_id'` unless the resource declares a key field, in which case
that field's `attname`. -/
def Operation.key_field_name (resource_slot : Option (Option ResourceMeta))
    (binding_slot : Option (Option ResourceApiInstance)) : Except PyErr String := do
  let r ← Operation.resourceProp resource_slot binding_slot
  .ok (match r with
       | some res =>
         match res.key_field with
         | some attname => attname
         | none => "resource_id"
       | none => "resource_id")

/-- The fragment of `Operation.__init__` that computes `self.path`
(decorators.py line 42, `self.path = url_path.apply_args(id=self.key_field_name)`),
the first fallible statement of the constructor (lines 37-41 are plain
assignments).  At this point neither the `_resource` slot (assigned at
line 45) nor the `_binding` slot (assigned at line 57) has been set, so
`key_field_name → resource → self._resource` raises
`AttributeError('_resource')` and the constructor never completes. -/
def Operation.init (url_path : UrlPath) : Except PyErr UrlPath := do
  let kfn ← Operation.key_field_name none none
  url_path.apply_args [("id", kfn)]

/-- The post-construction `Operation` state touched by
`bind_to_instance`: the finalized path, the middleware list (instances
identified by numeric ids) and the `_binding` / `parent` slots. -/
structure Operation where
  path : UrlPath
  middleware : List Nat
  binding : Option Nat := none
  parent : Option Nat := none
deriving DecidableEq, Repr

/-- `Operation.bind_to_instance(instance)` (decorators.py lines 124-129):
`self.parent = self._binding = instance; self.middleware.append(instance)`.
No other field — in particular not `path` — is touched. -/
def Operation.bind_to_instance (self : Operation) (inst : Nat) : Operation :=
  { self with parent := some inst, binding := some inst,
              middleware := self.middleware ++ [inst] }

/-! ## decorators.py — ListOperation.execute -/

/-- The attribute lookup `request.GET` performed by
`ListOperation.execute` (decorators.py line 259).  The request interface
of this repository — the slotted `bases.HttpRequestBase` (properties
`scheme/host/method/path/query/headers/cookies/post/body` plus the codec
slots), `testing.MockRequest`, and the attribute list asserted by
`testing.check_request_proxy` — exposes the query multi-map as `query`
and defines no `GET` attribute, so the lookup raises `AttributeError`. -/
def Req.GET (_ : Req) : Except PyErr (String → Option String) :=
  .error (.attributeError "GET")

/-- `ListOperation` paging configuration and the wrapped callback
(`super().execute` invokes the callback with the request and the keyword
arguments accumulated in `path_args`; a binding would only be prepended
as the `self` argument). -/
structure ListOperation where
  default_offset : Int := 0
  default_limit : Int := 50
  max_limit : Option Int := none
  callback : Req → PathArgs → Except PyErr RVal

/-- `str(total_count)` for the values a callback returns in the second
component of a `(result, total_count)` pair. -/
def pyStrOfTotal : Option Int → String
  | some n => toString n
  | none => "None"

/-- `ListOperation.execute(request, *args, **path_args)` (decorators.py
lines 257-285).  The first statement reads `request.GET`, which raises
`AttributeError` (see `Req.GET`); the remainder — transliterated
faithfully below — parses and clamps `offset`/`limit`, stores them in
`path_args`, runs the wrapped callback and wraps a non-`None` result via
`create_response` with the paging headers. -/
def ListOperation.execute (self : ListOperation) (request : Req)
    (path_args : PathArgs) : Except PyErr RVal := do
  let GET ← request.GET
  let offset ← match GET "offset" with
    | some s => pyInt s
    | none => .ok self.default_offset
  let offset := if offset < 0 then 0 else offset
  let path_args := path_args.setArg "offset" (.intV offset)
  let limit ← match GET "limit" with
    | some s => pyInt s
    | none => .ok self.default_limit
  let limit :=
    if limit < 1 then 1
    else
      match self.max_limit with
      | some m => if m ≠ 0 ∧ limit > m then m else limit
      | none => limit
  let path_args := path_args.setArg "limit" (.intV limit)
  let result ← self.callback request path_args
  if result = RVal.pyNone then
    .ok .pyNone
  else
    let inner := match result with
      | .tuple2 a _ => a
      | r => r
    let total : Option Int := match result with
      | .tuple2 _ (.intVal n) => some n
      | _ => none
    create_response request inner none (some [
      ("X-Page-Limit", toString limit),
      ("X-Page-Offset", toString offset),
      ("X-Total-Count", pyStrOfTotal total)])

/-! ## containers.py — the container tree and operation_items -/

/-- An `Operation` as a leaf of the container tree: its finalized `path`
and an identity used to state ordering. -/
structure OperationLeaf where
  path : UrlPath
  oid : Nat
deriving DecidableEq, Repr

/-- A node of the container tree: an `Operation` leaf, an `ApiContainer`
with its path prefix and ordered children, or a `ResourceApi` with its
path prefix and its collected `_operations` list. -/
inductive ApiNode where
  | operation (leaf : OperationLeaf)
  | container (prefix_path : UrlPath) (children : List ApiNode)
  | resourceApi (prefix_path : UrlPath) (operations : List OperationLeaf)

/-- `operation_items(path_base)` over the container tree, with the
generator fully collected into a list (an exception raised while
iterating is the `Except.error` result).  The `fuel` argument models
CPython's recursion limit and makes the recursion structural; every
theorem below supplies ample fuel.

* `Operation.operation_items` (decorators.py lines 137-145): prepend
  `path_prefix` when one is given (`UrlPath` objects define no `__bool__`
  or `__len__`, so any `UrlPath` — even the empty `NoPath` — is truthy
  and only `None` is falsy) and yield the single pair.
* `ApiContainer.operation_items` (containers.py lines 203-213):
  accumulate the prefix (`path_base += self.path_prefix`, which raises
  `ValueError` for an absolute prefix; with no `path_base` the container's
  own, always-truthy, prefix is used) and delegate to each child in list
  order.
* `ResourceApi.operation_items` (containers.py lines 136-145):
  accumulate the prefix, then iterate `operation.op_paths(path_base)` for
  each collected operation — but `Operation` (decorators.py) defines
  `operation_items` and no `op_paths` attribute, so the first iteration
  of a non-empty operation list raises `AttributeError('op_paths')`. -/
def ApiNode.operation_items :
    Nat → ApiNode → Option UrlPath → Except PyErr (List (UrlPath × OperationLeaf))
  | _, .operation leaf, path_base =>
    (match path_base with
     | some p => (UrlPath.add p leaf.path).map fun up => [(up, leaf)]
     | none => .ok [(leaf.path, leaf)])
  | _, .resourceApi pfx ops, path_base => do
    let _new_base ← match path_base with
      | some p => UrlPath.add p pfx
      | none => .error (.typeError "unsupported operand types for +=: NoneType and UrlPath")
    match ops with
    | [] => .ok []
    | _ :: _ => .error (.attributeError "op_paths")
  | 0, .container _ _, _ => .error (.exception "maximum recursion depth exceeded")
  | fuel + 1, .container pfx children, path_base => do
    let new_base ← match path_base with
      | some p => UrlPath.add p pfx
      | none => .ok pfx
    let results ← children.mapM fun c => ApiNode.operation_items fuel c (some new_base)
    .ok results.flatten

/-! ## Concrete fixtures used by the theorems -/

/-- A JSON codec as registered by `DEFAULT_CODECS` (the encoding function
itself is an external collaborator; any function serves). -/
def jsonCodec : Codec :=
  { content_type := "application/json", dumps := fun _ => "" }

/-- An `ApiInterfaceBase` with the default configuration: the JSON codec
registry, the default resolver chains and remap table, no middleware,
debug disabled. -/
def iface0 : ApiInterfaceBase :=
  { registered_codecs := [("application/json", jsonCodec)] }

/-- A GET operation whose callback returns a plain resource object. -/
def op0 : OperationModel :=
  { methods := [.Get], callback := fun _ _ => .ok (.resource "widget") }

/-- A GET operation whose callback raises an unclassified exception. -/
def opBoom : OperationModel :=
  { methods := [.Get], callback := fun _ _ => .error (.exception "boom") }

/-- A GET request with `Accepts: application/json` and no `Content-Type`
header. -/
def req0 : Req :=
  { method := .Get,
    headers := fun k => if k = "accepts" then some "application/json" else none,
    query := fun _ => none }

/-- The generic error resource produced by the `handle_500` fallback. -/
def serverError500 : Error :=
  Error.from_status .INTERNAL_SERVER_ERROR 0 (some "An unhandled error has been caught.")

/-- Operation leaves for the container-tree fixtures. -/
def leafOne : OperationLeaf := ⟨⟨[.lit "one"]⟩, 1⟩

def leafTwo : OperationLeaf := ⟨⟨[.lit "two"]⟩, 2⟩

def leafThree : OperationLeaf := ⟨⟨[.lit "three"]⟩, 3⟩

/-- A container tree without `ResourceApi` nodes: a container `api`
holding an operation, a nested container `v1` with an operation, and a
final operation. -/
def treeContainers : ApiNode :=
  .container ⟨[.lit "api"]⟩
    [.operation leafOne, .container ⟨[.lit "v1"]⟩ [.operation leafTwo], .operation leafThree]

/-- A container tree holding a `ResourceApi` with one collected
operation. -/
def treeResourceApi : ApiNode :=
  .container ⟨[.lit "api"]⟩ [.resourceApi ⟨[.lit "user"]⟩ [leafOne]]

/-- A `ListOperation` with the paging configuration of the spec's clamp
property. -/
def listOp0 : ListOperation :=
  { default_limit := 50, max_limit := some 100,
    callback := fun _ _ => .ok (.resource "items") }

/-- The node relation established by `apply_args`: literal nodes are
unchanged and parameter nodes keep their `type` and `type_args`, only
the name being substituted. -/
def applyArgsNodeRel (a b : UrlNode) : Prop :=
  (∃ s, a = UrlNode.lit s ∧ b = UrlNode.lit s) ∨
  (∃ p q, a = UrlNode.param p ∧ b = UrlNode.param q ∧
    q.type = p.type ∧ q.type_args = p.type_args)

/-! ## Supporting lemmas -/

theorem pySplitChar_ne_nil (c : Char) (l : List Char) : pySplitChar c l ≠ [] := by
  cases l with
  | nil => simp [pySplitChar]
  | cons x xs =>
    unfold pySplitChar
    cases h : pySplitChar c xs with
    | nil => simp
    | cons hd tl => by_cases hx : x = c <;> simp [hx]

theorem pyJoinChar_pySplitChar (c : Char) (l : List Char) :
    pyJoinChar c (pySplitChar c l) = l := by
  induction l with
  | nil => rfl
  | cons x xs ih =>
    unfold pySplitChar
    cases h : pySplitChar c xs with
    | nil => exact absurd h (pySplitChar_ne_nil c xs)
    | cons hd tl =>
      rw [h] at ih
      dsimp only
      by_cases hx : x = c
      · subst hx
        rw [if_pos rfl]
        show [] ++ x :: pyJoinChar x (hd :: tl) = x :: xs
        rw [ih]
        rfl
      · rw [if_neg hx]
        cases tl with
        | nil =>
          have hhd : hd = xs := by simpa [pyJoinChar] using ih
          simp [pyJoinChar, hhd]
        | cons hd2 tl2 =>
          have hrest : hd ++ c :: pyJoinChar c (hd2 :: tl2) = xs := by
            simpa [pyJoinChar] using ih
          simp [pyJoinChar, ← hrest]

theorem mem_of_mem_pySplitChar {c : Char} :
    ∀ {l p : List Char}, p ∈ pySplitChar c l → ∀ {x}, x ∈ p → x ∈ l := by
  intro l
  induction l with
  | nil =>
    intro p hp x hx
    simp [pySplitChar] at hp
    subst hp
    simp at hx
  | cons y ys ih =>
    intro p hp x hx
    unfold pySplitChar at hp
    cases h : pySplitChar c ys with
    | nil => exact absurd h (pySplitChar_ne_nil c ys)
    | cons hd tl =>
      rw [h] at hp
      dsimp only at hp
      by_cases hy : y = c
      · rw [if_pos hy] at hp
        rcases List.mem_cons.mp hp with hnl | hp'
        · subst hnl; simp at hx
        · have : x ∈ ys := ih (h ▸ hp') hx
          exact List.mem_cons_of_mem y this
      · rw [if_neg hy] at hp
        rcases List.mem_cons.mp hp with hph | hp'
        · subst hph
          rcases List.mem_cons.mp hx with hxy | hxh
          · subst hxy; exact List.mem_cons_self x ys
          · have : x ∈ ys := ih (h ▸ List.mem_cons_self hd tl) hxh
            exact List.mem_cons_of_mem y this
        · have : x ∈ ys := ih (h ▸ List.mem_cons_of_mem hd hp') hx
          exact List.mem_cons_of_mem y this

theorem pySplitChar_eq_singleton_nil {c : Char} {l : List Char} :
    pySplitChar c l = [[]] ↔ l = [] := by
  constructor
  · intro h
    cases l with
    | nil => rfl
    | cons y ys =>
      unfold pySplitChar at h
      cases hs : pySplitChar c ys with
      | nil => exact absurd hs (pySplitChar_ne_nil c ys)
      | cons hd tl =>
        rw [hs] at h
        dsimp only at h
        by_cases hy : y = c
        · rw [if_pos hy] at h
          injection h with h1 h2
          exact absurd h2 (by simp)
        · rw [if_neg hy] at h
          injection h with h1 h2
          exact absurd h1 (by simp)
  · rintro rfl; rfl

theorem pyRstripChar_eq_self {c : Char} {l : List Char} (h : l.getLast? ≠ some c) :
    pyRstripChar c l = l := by
  unfold pyRstripChar
  cases hrev : l.reverse with
  | nil =>
    have hl : l = [] := List.reverse_eq_nil_iff.mp hrev
    subst hl; rfl
  | cons y ys =>
    have hy : ¬ (y = c) := by
      intro hc
      apply h
      rw [← List.head?_reverse, hrev, hc]
      rfl
    rw [List.dropWhile_cons, if_neg (by simpa using hy), ← hrev, List.reverse_reverse]

theorem stringMk_data (s : String) : String.mk s.data = s := by
  cases s; rfl

theorem mapM_ok_of_forall {α β : Type} {f : α → Except PyErr β} {g : α → β} :
    ∀ {l : List α}, (∀ a ∈ l, f a = .ok (g a)) → l.mapM f = .ok (l.map g) := by
  intro l
  induction l with
  | nil => intro _; rfl
  | cons a as ih =>
    intro h
    rw [List.mapM_cons, h a (List.mem_cons_self a as),
      ih (fun x hx => h x (List.mem_cons_of_mem a hx))]
    rfl

theorem mapM_ok_forall₂ {α β : Type} {f : α → Except PyErr β} :
    ∀ {l : List α} {ns : List β}, l.mapM f = .ok ns →
      List.Forall₂ (fun a b => f a = .ok b) l ns := by
  intro l
  induction l with
  | nil =>
    intro ns h
    have h' : (Except.ok [] : Except PyErr (List β)) = .ok ns := h
    injection h' with h''
    subst h''
    exact List.Forall₂.nil
  | cons a as ih =>
    intro ns h
    rw [List.mapM_cons] at h
    cases hfa : f a with
    | error e => rw [hfa] at h; exact absurd h (by simp [Bind.bind, Except.bind])
    | ok b =>
      rw [hfa] at h
      cases hms : as.mapM f with
      | error e => rw [hms] at h; exact absurd h (by simp [Bind.bind, Except.bind])
      | ok bs =>
        rw [hms] at h
        have h' : (Except.ok (b :: bs) : Except PyErr (List β)) = .ok ns := h
        injection h' with h''
        subst h''
        exact List.Forall₂.cons hfa (ih hms)

/-! ## Claim theorems -/

/-- C1 — The claim says a dispatched request with resolved codecs, an
allowed method and a callback returning a plain resource yields a
`200 OK` response carrying the codec-encoded body and the codec's
content type.  On the code this fails: `create_response` calls
`HttpResponse.set_content_type`, which does not exist (only a
`content_type` property is defined), so `_dispatch` raises
`AttributeError` and the outer guard of `dispatch` converts it into the
generic 500 error resource.  The conjuncts record that the fixture
satisfies every premise of the claim: the content type resolves to the
registered JSON codec, the method is allowed and the callback returns a
non-`HttpResponse`, non-`None` resource. -/
theorem C1_dispatch_resource_encoding_fails :
    resolve_content_type iface0.request_type_resolvers req0 = some "application/json" ∧
    codecLookup iface0.registered_codecs (some "application/json") = some jsonCodec ∧
    op0.methods.contains req0.method = true ∧
    op0.callback req0 [] = .ok (.resource "widget") ∧
    iface0._dispatch op0 req0 [] = .error (.attributeError "set_content_type") ∧
    iface0.dispatch op0 req0 [] = .ok (.errorRes serverError500) :=
  ⟨rfl, rfl, rfl, rfl, rfl, rfl⟩

/-- C2 — The claim says `UrlPath.parse` fails with a parse error for an
unknown type name and defaults an omitted type to `DataType.Integer`.
On the code neither happens: line 162 subscripts `typing.Type` (not
`DataType`), which succeeds for every name, so `\x7bid:Unknown\x7d`
parses without error and `\x7bid\x7d` stores `typing.Type[None]` rather
than the Integer data type. -/
theorem C2_parse_type_lookup_dead_code :
    UrlPath.parse "\x7bid:Unknown\x7d" =
      .ok ⟨[.param ⟨"id", .typingType (some "Unknown"), none⟩]⟩ ∧
    UrlPath.parse "\x7bid\x7d" =
      .ok ⟨[.param ⟨"id", .typingType none, none⟩]⟩ ∧
    ParamType.typingType none ≠ ParamType.data DataType.Integer :=
  ⟨rfl, rfl, by decide⟩

/-- C4 — concatenation with an absolute right-hand operand always raises
`ValueError`, for every left operand (absolute or not). -/
theorem C4_add_absolute_rhs_fails (a b : UrlPath) (h : b.is_absolute = true) :
    UrlPath.add a b = .error (.valueError "Right hand argument cannot be absolute.") := by
  obtain ⟨nodes⟩ := b
  cases nodes with
  | nil => simp [UrlPath.is_absolute] at h
  | cons n rest =>
    have hn : n = UrlNode.lit "" := by
      simpa [UrlPath.is_absolute] using h
    subst hn
    simp [UrlPath.add, _add_nodes, Except.map]

/-- Witness for C4 at `v1 + /api`. -/
theorem C4_add_absolute_rhs_fails_witness :
    (UrlPath.mk [UrlNode.lit "", UrlNode.lit "api"]).is_absolute = true ∧
    UrlPath.add ⟨[UrlNode.lit "v1"]⟩ ⟨[UrlNode.lit "", UrlNode.lit "api"]⟩ =
      .error (.valueError "Right hand argument cannot be absolute.") :=
  ⟨by decide, C4_add_absolute_rhs_fails ⟨[UrlNode.lit "v1"]⟩ ⟨[UrlNode.lit "", UrlNode.lit "api"]⟩ (by decide)⟩

/-- C5 — The claim says `operation_items` yields one (path, operation)
pair per leaf with accumulated prefixes in declaration order.  That
holds for trees made of `ApiContainer` nodes and `Operation` leaves
(first conjunct), but any `ResourceApi` node with a non-empty operation
list breaks it: `ResourceApi.operation_items` iterates
`operation.op_paths(...)`, an attribute `Operation` does not define, so
iteration raises `AttributeError` (second conjunct). -/
theorem C5_operation_items_resource_api_broken :
    ApiNode.operation_items 10 treeContainers none = .ok
      [(⟨[.lit "api", .lit "one"]⟩, leafOne),
       (⟨[.lit "api", .lit "v1", .lit "two"]⟩, leafTwo),
       (⟨[.lit "api", .lit "three"]⟩, leafThree)] ∧
    ApiNode.operation_items 10 treeResourceApi none = .error (.attributeError "op_paths") :=
  ⟨rfl, rfl⟩

/-- C6 — The claim says `bind_to_instance` records the instance, appends
it to the middleware list, and finalizes the path with the resource's
key-field name (`resource_id` when none is declared).  On the code the
path substitution is *not* part of binding: it is attempted once in
`__init__` (line 42), which always raises `AttributeError('_resource')`
because `key_field_name` reads the `_resource` slot before line 45
assigns it (first conjunct); and `bind_to_instance` itself only records
the instance and appends it to the middleware, leaving `path` untouched
(second conjunct). -/
theorem C6_bind_to_instance_no_path_substitution :
    (∀ url_path : UrlPath, Operation.init url_path = .error (.attributeError "_resource")) ∧
    (∀ (self : Operation) (inst : Nat),
      (self.bind_to_instance inst).path = self.path ∧
      (self.bind_to_instance inst).binding = some inst ∧
      (self.bind_to_instance inst).parent = some inst ∧
      (self.bind_to_instance inst).middleware = self.middleware ++ [inst]) :=
  ⟨fun _ => rfl, fun _ _ => ⟨rfl, rfl, rfl, rfl⟩⟩

/-- C7 — The claim says `ListOperation.execute` clamps `limit`/`offset`
from the query string and injects them as keyword arguments to the
callback.  On the code the very first statement reads `request.GET`,
an attribute the repository's request interface does not define (it
exposes `query`), so every execution raises `AttributeError('GET')`
before any clamping, for every paging configuration including the
claim's `default_limit=50, max_limit=100`. -/
theorem C7_list_execute_get_attribute_error :
    (∀ (self : ListOperation) (request : Req) (path_args : PathArgs),
      self.execute request path_args = .error (.attributeError "GET")) ∧
    listOp0.execute req0 [] = .error (.attributeError "GET") :=
  ⟨fun _ _ _ => rfl, rfl⟩

/-- C8 — `resolve_content_type` returns the first resolver result that is
non-empty after parameter stripping, and `None` when every resolver
yields an empty result; `parse_content_type` strips parameters as in the
spec's example. -/
theorem C8_resolve_content_type_first_match :
    (∀ {ρ : Type} (type_resolvers : List (ρ → Option String)) (request : ρ),
      resolve_content_type type_resolvers request =
        (type_resolvers.map fun resolver => parse_content_type (resolver request)).find?
          (fun s => s != "")) ∧
    parse_content_type (some "application/json; charset=utf8") = "application/json" := by
  constructor
  · intro ρ type_resolvers request
    induction type_resolvers with
    | nil => rfl
    | cons a t ih =>
      unfold resolve_content_type
      rw [List.map_cons]
      by_cases h : parse_content_type (a request) = ""
      · simp [h, ih, List.find?]
      · have hb : (parse_content_type (a request) != "") = true := by
          simpa [bne_iff_ne] using h
        simp [List.find?, hb, h]
  · decide

/-- With no `handle_500` middleware hooks registered, `handle_500`
returns the generic 500 error resource. -/
theorem handle_500_no_hooks (iface : ApiInterfaceBase) (request : Req) (e : PyErr)
    (h : iface.middleware.handle_500 = []) :
    iface.handle_500 request e = .errorRes serverError500 := by
  unfold ApiInterfaceBase.handle_500
  rw [h]
  rfl

/-- C9 — a callback (or hook pipeline) raising an unclassified exception
— not `ImmediateHttpResponse`, `ValidationError` or
`NotImplementedError` — with no `handle_500` middleware and debug mode
disabled makes `dispatch_operation` produce the `Error` resource with
status 500, code 50000 (= 500·100 + 0) and message "An unhandled error
has been caught.". -/
theorem C9_unhandled_exception_500 (iface : ApiInterfaceBase)
    (operation : OperationModel) (request : Req) (path_args : PathArgs) (e : PyErr)
    (hdebug : iface.debug_enabled = false)
    (hhooks : iface.middleware.handle_500 = [])
    (hbody : dispatchOperationBody iface operation request path_args = .error e)
    (hunc : e.isUnclassified = true) :
    iface.dispatch_operation operation request path_args =
      .ok (.errorRes serverError500, some (.ofInt 500), none) ∧
    serverError500.status = 500 ∧ serverError500.code = 50000 ∧
    serverError500.message = "An unhandled error has been caught." := by
  refine ⟨?_, by decide, by decide, by decide⟩
  unfold ApiInterfaceBase.dispatch_operation
  rw [hbody]
  have h500 := handle_500_no_hooks iface request e hhooks
  cases e with
  | validationError m d => simp [PyErr.isUnclassified] at hunc
  | notImplementedError => simp [PyErr.isUnclassified] at hunc
  | immediateHttpResponse r s hd => simp [PyErr.isUnclassified] at hunc
  | valueError m => simp [hdebug, h500, RVal.statusAttr]; decide
  | keyError k => simp [hdebug, h500, RVal.statusAttr]; decide
  | attributeError a => simp [hdebug, h500, RVal.statusAttr]; decide
  | typeError m => simp [hdebug, h500, RVal.statusAttr]; decide
  | indexError m => simp [hdebug, h500, RVal.statusAttr]; decide
  | exception m => simp [hdebug, h500, RVal.statusAttr]; decide

/-- Witness for C9: the default interface, a callback raising a plain
exception, the fixture request. -/
theorem C9_unhandled_exception_500_witness :
    (iface0.debug_enabled = false ∧ iface0.middleware.handle_500 = [] ∧
      dispatchOperationBody iface0 opBoom req0 [] = .error (.exception "boom") ∧
      (PyErr.exception "boom").isUnclassified = true) ∧
    (iface0.dispatch_operation opBoom req0 [] =
        .ok (.errorRes serverError500, some (.ofInt 500), none) ∧
      serverError500.status = 500 ∧ serverError500.code = 50000 ∧
      serverError500.message = "An unhandled error has been caught.") :=
  ⟨⟨rfl, rfl, rfl, rfl⟩,
    C9_unhandled_exception_500 iface0 opBoom req0 [] (.exception "boom") rfl rfl rfl rfl⟩

/-- C10 counterexample — `apply_args` does not return a `UrlPath` for
every path and keyword mapping: a parameter name carrying a replacement
field not covered by the mapping makes `str.format` raise `KeyError`,
as for name `\x7bx\x7d` under the mapping `id=item_id`. -/
theorem C10_apply_args_counterexample :
    UrlPath.apply_args ⟨[UrlNode.param ⟨"\x7bx\x7d", .data .Integer, none⟩]⟩
        [("id", "item_id")] =
      .error (.keyError "x") := by
  decide

/-- C10 (amended) — whenever `apply_args` returns a `UrlPath` (rather
than raising), the result has the same number of nodes in the same
order, literal nodes are unchanged, and every `PathParam` keeps its
`type` and `type_args`; only parameter names are substituted. -/
theorem C10_apply_args_frame (u : UrlPath) (kwargs : List (String × String))
    (u' : UrlPath) (h : u.apply_args kwargs = .ok u') :
    u'.nodes.length = u.nodes.length ∧
    List.Forall₂ applyArgsNodeRel u.nodes u'.nodes := by
  unfold UrlPath.apply_args at h
  cases hm : u.nodes.mapM (applyArgsNode kwargs) with
  | error e =>
    rw [hm] at h
    exact absurd h (by simp [Bind.bind, Except.bind])
  | ok ns =>
    rw [hm] at h
    have hns : (Except.ok ⟨ns⟩ : Except PyErr UrlPath) = .ok u' := h
    injection hns with hns'
    subst hns'
    have hf := mapM_ok_forall₂ hm
    refine ⟨(List.Forall₂.length_eq hf).symm, ?_⟩
    refine List.Forall₂.imp ?_ hf
    intro a b hab
    cases a with
    | lit s =>
      have hb : (Except.ok (UrlNode.lit s) : Except PyErr UrlNode) = .ok b := hab
      injection hb with hb'
      exact Or.inl ⟨s, rfl, hb'.symm⟩
    | param p =>
      unfold applyArgsNode at hab
      dsimp only at hab
      cases hp : pyFormat p.name kwargs with
      | error e => rw [hp] at hab; exact absurd hab (by simp [Except.map])
      | ok nm =>
        rw [hp] at hab
        have hb : (Except.ok (UrlNode.param ⟨nm, p.type, p.type_args⟩) : Except PyErr UrlNode)
            = .ok b := hab
        injection hb with hb'
        exact Or.inr ⟨p, ⟨nm, p.type, p.type_args⟩, rfl, hb'.symm, rfl, rfl⟩

/-- Witness for C10 at `items/\x7bid\x7d` under the mapping `id=item_id`. -/
theorem C10_apply_args_frame_witness :
    (UrlPath.apply_args ⟨[UrlNode.lit "items", UrlNode.param ⟨"\x7bid\x7d", .data .Integer, none⟩]⟩
        [("id", "item_id")] =
      .ok ⟨[UrlNode.lit "items", UrlNode.param ⟨"item_id", .data .Integer, none⟩]⟩) ∧
    ((UrlPath.mk [UrlNode.lit "items", UrlNode.param ⟨"item_id", .data .Integer, none⟩]).nodes.length =
      (UrlPath.mk [UrlNode.lit "items", UrlNode.param ⟨"\x7bid\x7d", .data .Integer, none⟩]).nodes.length ∧
      List.Forall₂ applyArgsNodeRel
        (UrlPath.mk [UrlNode.lit "items", UrlNode.param ⟨"\x7bid\x7d", .data .Integer, none⟩]).nodes
        (UrlPath.mk [UrlNode.lit "items", UrlNode.param ⟨"item_id", .data .Integer, none⟩]).nodes) :=
  ⟨by decide,
    C10_apply_args_frame
      ⟨[UrlNode.lit "items", UrlNode.param ⟨"\x7bid\x7d", .data .Integer, none⟩]⟩
      [("id", "item_id")]
      ⟨[UrlNode.lit "items", UrlNode.param ⟨"item_id", .data .Integer, none⟩]⟩
      (by decide)⟩

/-- C3 — For every literal-only path string (no brace characters) with no
trailing slash, `format(parse(p)) = p` (first conjunct).  For the
parameterized path `/items/\x7bid:Integer\x7d` the claim fails on the
code: parsing succeeds but stores the `typing.Type` alias produced by
line 162, and formatting then raises `AttributeError('name')` inside
`odinweb_node_formatter` (second conjunct). -/
theorem C3_format_parse_roundtrip :
    (∀ p : String, '{' ∉ p.data → '}' ∉ p.data → p.data.getLast? ≠ some '/' →
      UrlPath.roundTrip p = .ok p) ∧
    UrlPath.roundTrip "/items/\x7bid:Integer\x7d" = .error (.attributeError "name") := by
  constructor
  · intro p h1 h2 h3
    by_cases hp : p = ""
    · subst hp; rfl
    · unfold UrlPath.roundTrip UrlPath.parse
      rw [if_neg hp, pyRstripChar_eq_self h3]
      have hmapM : ((pySplitChar '/' p.data).map String.mk).mapM parseNode =
          .ok (((pySplitChar '/' p.data).map String.mk).map UrlNode.lit) := by
        apply mapM_ok_of_forall
        intro s hs
        rcases List.mem_map.mp hs with ⟨piece, hpiece, rfl⟩
        unfold parseNode
        rw [if_neg]
        rintro (hb | hb)
        · exact h1 (mem_of_mem_pySplitChar hpiece hb)
        · exact h2 (mem_of_mem_pySplitChar hpiece hb)
      rw [hmapM]
      show UrlPath.format ⟨((pySplitChar '/' p.data).map String.mk).map UrlNode.lit⟩ = .ok p
      unfold UrlPath.format
      have hne : (((pySplitChar '/' p.data).map String.mk).map UrlNode.lit) ≠
          [UrlNode.lit ""] := by
        intro heq
        have hlen : (pySplitChar '/' p.data).length = 1 := by
          have := congrArg List.length heq
          simpa using this
        obtain ⟨piece, hpieceq⟩ := List.length_eq_one.mp hlen
        rw [hpieceq] at heq
        simp only [List.map_cons, List.map_nil, List.cons.injEq, and_true, UrlNode.lit.injEq]
          at heq
        have hpiece_nil : piece = [] := by
          have := congrArg String.data heq
          simpa using this
        rw [hpiece_nil] at hpieceq
        have hdata : p.data = [] := pySplitChar_eq_singleton_nil.mp hpieceq
        apply hp
        rw [← stringMk_data p, hdata]
      rw [if_neg hne]
      have hparts : (((pySplitChar '/' p.data).map String.mk).map UrlNode.lit).mapM formatNode =
          .ok ((((pySplitChar '/' p.data).map String.mk).map UrlNode.lit).map fun n =>
            match n with
            | UrlNode.lit s => s
            | UrlNode.param _ => "") := by
        apply mapM_ok_of_forall
        intro n hn
        rcases List.mem_map.mp hn with ⟨s, _, rfl⟩
        rfl
      rw [hparts]
      have hcollapse : ∀ sp : List (List Char),
          ((((sp.map String.mk).map UrlNode.lit).map fun n =>
            match n with
            | UrlNode.lit s => s
            | UrlNode.param _ => "").map String.data) = sp := by
        intro sp
        induction sp with
        | nil => rfl
        | cons piece rest ih => simp only [List.map_cons, ih]
      show Except.ok (String.mk (pyJoinChar '/'
          (((((pySplitChar '/' p.data).map String.mk).map UrlNode.lit).map fun n =>
            match n with
            | UrlNode.lit s => s
            | UrlNode.param _ => "").map String.data))) = .ok p
      rw [hcollapse, pyJoinChar_pySplitChar, stringMk_data]
  · rfl

/-- Witness for C3 at the literal-only path `/items/42`. -/
theorem C3_format_parse_roundtrip_witness :
    ('{' ∉ ("/items/42" : String).data ∧ '}' ∉ ("/items/42" : String).data ∧
      ("/items/42" : String).data.getLast? ≠ some '/') ∧
    UrlPath.roundTrip "/items/42" = .ok "/items/42" :=
  ⟨⟨by decide, by decide, by decide⟩,
    C3_format_parse_roundtrip.1 "/items/42" (by decide) (by decide) (by decide)⟩

end OdinWeb3
